/-
  Verification of the raceiq telemetry degradation & strategy inference engine.

  Shallow embedding of the core analysis functions:
    - src/data_loader.py               (RaceDataLoader._time_to_seconds)
    - src/telemetry_processor.py       (normalize_lap_number, clean_telemetry_value,
                                        get_default_value, KEY_PARAMETERS)
    - src/analysis/tire_degradation.py (analyze_lap_degradation, predict_pit_window)
    - src/analysis/race_strategy.py    (parse_time, calculate_fuel_strategy,
                                        calculate_optimal_pit_strategy)
    - src/analysis/racing_line.py      (calculate_potential_lap_time)

  Modelling conventions:
    - Python floats are modelled as exact rationals (ℚ); the algorithms use only
      +, -, *, /, comparisons, so rational arithmetic mirrors the computation.
    - Python `int(x)` truncation toward zero is `pytrunc`.
    - Python `round(x, d)` is `pyround` (round half away from ties modelled by
      Mathlib `round`; no verified statement depends on tie behaviour).
    - A function that can raise is modelled as returning `Option`; `none` is
      the caught-exception / error-dict outcome.
    - A pandas DataFrame of per-lap rows is a `List LapRow`; `pandas.sort_values`
      on distinct keys is modelled by insertion sort on the key.
    - A raw lap-time string is modelled by its list of colon-separated fields
      (`List Tok`): each field is an integer literal, a non-integer float
      literal, or junk that `float()`/`int()` reject.  Splitting on a colon is
      total, so every string is represented and parsing never raises.
-/
import Mathlib

set_option autoImplicit false

namespace RaceIQ

/-! ### Python primitives -/

/-- Python `int(x)` on a float: truncation toward zero. -/
def pytrunc (q : ℚ) : ℤ := if 0 ≤ q then ⌊q⌋ else ⌈q⌉

/-- Python `round(x, d)`: round to `d` decimal places. -/
def pyround (q : ℚ) (d : ℕ) : ℚ := ((round (q * 10 ^ d) : ℤ) : ℚ) / 10 ^ d

/-- Mean of a list of rationals (`pandas.Series.mean`); only evaluated on
nonempty lists by the embedded code. -/
def listMean (l : List ℚ) : ℚ := l.sum / l.length

/-- Fold-style minimum of `f` over a list, seeded with `a`
(`pandas.Series.min` over a nonempty column, written as a fold from the
first row). -/
def foldMin {α : Type} (f : α → ℚ) (a : ℚ) (l : List α) : ℚ :=
  l.foldl (fun m x => min m (f x)) a

/-- Minimum of a column `f` over a row list (`pandas.Series.min`); 0 on the
empty list, which no embedded call path consults. -/
def columnMin {α : Type} (f : α → ℚ) : List α → ℚ
  | [] => 0
  | r :: rs => foldMin f (f r) rs

/-- The last `n` elements of a list (`DataFrame.tail(n)`). -/
def lastN {α : Type} (l : List α) (n : ℕ) : List α := l.drop (l.length - n)

/-- Python `range(a, b)` over integers, as a list. -/
def pyRange (a b : ℤ) : List ℤ := (List.range (b - a).toNat).map (fun (i : ℕ) => a + (i : ℤ))

/-- The body of a running-minimum loop: the accumulator is the current
`(best, min)` pair, the minimum `none` while still `float('inf')`; a
candidate replaces the best on a strict improvement
(race_strategy.py lines 235-251). -/
def minStep (cost : ℤ → ℚ) (acc : ℤ × Option ℚ) (p : ℤ) : ℤ × Option ℚ :=
  let c := cost p
  match acc.2 with
  | none => (p, some c)
  | some m => if c < m then (p, some c) else acc

/-! ### Lap-time string parsing (data_loader.py and race_strategy.py)

A raw lap-time string is represented by its colon-separated fields. -/

/-- One colon-separated field of a raw time string. -/
inductive Tok where
  /-- a field that is a valid Python integer literal (e.g. "1") -/
  | intTok (n : ℤ)
  /-- a field that `float()` accepts but `int()` rejects (e.g. "34.567") -/
  | decTok (q : ℚ)
  /-- a field that neither `float()` nor `int()` accepts (e.g. "abc") -/
  | junk
  deriving DecidableEq, Repr

/-- Python `float(field)` on a single field. -/
def pyFloatField : Tok → Option ℚ
  | .intTok n => some (n : ℚ)
  | .decTok q => some q
  | .junk => none

/-- Python `int(field)` on a single field. -/
def pyIntField : Tok → Option ℤ
  | .intTok n => some n
  | _ => none

namespace DataLoader

/-- Embeds `RaceDataLoader._time_to_seconds` (src/data_loader.py lines 96-109):
split on `:`; with exactly two parts return `int(parts[0])*60 + float(parts[1])`;
otherwise `float(time_str)` — which fails whenever the string still contains a
colon (three or more parts).  Any exception yields `None`. -/
def time_to_seconds (parts : List Tok) : Option ℚ :=
  match parts with
  | [p0, p1] =>
    match pyIntField p0, pyFloatField p1 with
    | some m, some s => some ((m : ℚ) * 60 + s)
    | _, _ => none
  | [p] => pyFloatField p
  | _ => none

end DataLoader

namespace RaceStrategy

/-- The local `parse_time` helper of `RaceStrategyAnalyzer` (race_strategy.py
lines 106-113): if the string contains a colon (two or more fields), return
`float(parts[0])*60 + float(parts[1])` — extra fields beyond the second are
ignored; otherwise `float(t)`.  Any exception yields `None`. -/
def parse_time (parts : List Tok) : Option ℚ :=
  match parts with
  | [p] => pyFloatField p
  | p0 :: p1 :: _ =>
    match pyFloatField p0, pyFloatField p1 with
    | some a, some b => some (a * 60 + b)
    | _, _ => none
  | [] => none

end RaceStrategy

/-! ### Telemetry processor (telemetry_processor.py) -/

namespace Telemetry

/-- Embeds `TelemetryProcessor.normalize_lap_number` (telemetry_processor.py
lines 59-63). -/
def normalize_lap_number (lap : ℤ) : ℤ :=
  if lap = 32768 ∨ lap < 0 ∨ lap > 100 then -1 else lap

/-- The `KEY_PARAMETERS` allow-list (telemetry_processor.py lines 18-32). -/
def KEY_PARAMETERS : List String :=
  ["speed", "aps", "ath", "pbrake_f", "pbrake_r", "gear", "nmot",
   "Steering_Angle", "accx_can", "accy_can", "VBOX_Long_Minutes",
   "VBOX_Lat_Min", "Laptrigger_lapdist_dls"]

/-- A raw value handed to `clean_telemetry_value`: a finite number, a NaN,
an infinity, or something `float()` rejects. -/
inductive TelemIn where
  | num (q : ℚ)
  | nan
  | inf
  | ninf
  | bad
  deriving DecidableEq, Repr

/-- A Python float result: finite, NaN or infinite. -/
inductive PyFloat where
  | num (q : ℚ)
  | nan
  | inf
  | ninf
  deriving DecidableEq, Repr

/-- Embeds `TelemetryProcessor.get_default_value` (telemetry_processor.py
lines 115-135). -/
def get_default_value (p : String) : ℚ :=
  if p = "Speed" then 0
  else if p = "speed" then 0
  else if p = "aps" then 0
  else if p = "ath" then 0
  else if p = "pbrake_f" then 0
  else if p = "pbrake_r" then 0
  else if p = "Gear" then 4
  else if p = "gear" then 4
  else if p = "nmotor" then 5000
  else if p = "nmot" then 5000
  else if p = "Steering_Angle" then 0
  else if p = "accx_can" then 0
  else if p = "accy_can" then 0
  else if p = "VBOX_Long_Minutes" then 0
  else if p = "VBOX_Lat_Min" then 0
  else if p = "Laptrigger_lapdist_dls" then 0
  else 0

/-- Embeds `TelemetryProcessor.clean_telemetry_value` (telemetry_processor.py
lines 79-113): `float(value)` failures, NaN and infinities fall back to the
channel default; ranged channels are clipped with `max`/`min`; gear is
truncated to an integer before clipping; unlisted channels pass through. -/
def clean_telemetry_value (value : TelemIn) (p : String) : PyFloat :=
  match value with
  | .num q =>
    if p = "aps" ∨ p = "ath" then .num (max 0 (min 100 q))
    else if p = "pbrake_f" ∨ p = "pbrake_r" then .num (max 0 (min 100 q))
    else if p = "Speed" ∨ p = "speed" then .num (max 0 (min 250 q))
    else if p = "Gear" ∨ p = "gear" then .num ((max 0 (min 6 (pytrunc q)) : ℤ) : ℚ)
    else if p = "nmotor" ∨ p = "nmot" then .num (max 0 (min 8500 q))
    else if p = "Steering_Angle" then .num (max (-540) (min 540 q))
    else if p = "accx_can" ∨ p = "accy_can" then .num (max (-3) (min 3 q))
    else .num q
  | .nan => .num (get_default_value p)
  | .inf => .num (get_default_value p)
  | .ninf => .num (get_default_value p)
  | .bad => .num (get_default_value p)

end Telemetry

/-! ### The lap-indexed analysis table

One row per vehicle per lap.  `lap_time_seconds` is the loader-parsed lap time
consumed by tire_degradation.py and racing_line.py; `LAP_TIME` is the raw
string (as its colon-separated fields) that race_strategy.py re-parses itself;
`KPH` is the average speed and `S1_SECONDS`..`S3_SECONDS` the sector splits. -/

structure LapRow where
  NUMBER : ℤ
  LAP_NUMBER : ℤ
  lap_time_seconds : ℚ
  LAP_TIME : List Tok
  KPH : ℚ
  S1_SECONDS : ℚ
  S2_SECONDS : ℚ
  S3_SECONDS : ℚ
  deriving DecidableEq, Repr

/-- Embeds `analysis_df[analysis_df['NUMBER'] == vehicle_number]`. -/
def vehicleRows (df : List LapRow) (v : ℤ) : List LapRow :=
  df.filter (fun r => r.NUMBER = v)

namespace TireDegradation

/-- The vehicle's rows sorted ascending by `LAP_NUMBER`
(`sort_values('LAP_NUMBER')` inside `analyze_lap_degradation`,
tire_degradation.py line 30). -/
def sortedVehicleLaps (df : List LapRow) (v : ℤ) : List LapRow :=
  (vehicleRows df v).insertionSort (fun a b => a.LAP_NUMBER ≤ b.LAP_NUMBER)

/-- The vehicle's best (minimum) lap time, over a nonempty row list
(tire_degradation.py line 38); 0 on the empty list, which the code never
consults. -/
def bestLapTime (rows : List LapRow) : ℚ :=
  columnMin (fun x => x.lap_time_seconds) rows

/-- Column `delta_to_best` of a row (tire_degradation.py line 39).  The rolling
3-lap mean, lap-to-lap delta and heuristic tire-life columns that
`analyze_lap_degradation` also attaches are not read by any verified
function and are omitted from the embedding. -/
def deltaToBest (rows : List LapRow) (r : LapRow) : ℚ :=
  r.lap_time_seconds - bestLapTime rows

/-! #### Least-squares fit (sklearn LinearRegression on one feature)

Slope and intercept of the ordinary least-squares line through the points;
when every x coincides, `LinearRegression` (least-squares via pseudo-inverse)
returns slope 0 and intercept ȳ. -/

/-- OLS slope over `(x, y)` pairs. -/
def olsSlope (pts : List (ℚ × ℚ)) : ℚ :=
  let n : ℚ := pts.length
  let sx := (pts.map Prod.fst).sum
  let sy := (pts.map Prod.snd).sum
  let sxx := (pts.map (fun p => p.1 * p.1)).sum
  let sxy := (pts.map (fun p => p.1 * p.2)).sum
  let d := n * sxx - sx * sx
  if d = 0 then 0 else (n * sxy - sx * sy) / d

/-- OLS intercept over `(x, y)` pairs. -/
def olsIntercept (pts : List (ℚ × ℚ)) : ℚ :=
  let n : ℚ := pts.length
  let sx := (pts.map Prod.fst).sum
  let sy := (pts.map Prod.snd).sum
  (sy - olsSlope pts * sx) / n

/-- The recent-lap window used by `predict_pit_window`
(tire_degradation.py lines 77-80): rows with `LAP_NUMBER >= current_lap - 5`,
falling back to the last 5 rows when fewer than 3 match. -/
def recentWindow (df : List LapRow) (v : ℤ) (current_lap : ℤ) : List LapRow :=
  let sorted := sortedVehicleLaps df v
  let recent := sorted.filter (fun r => current_lap - 5 ≤ r.LAP_NUMBER)
  if recent.length < 3 then lastN sorted 5 else recent

/-- The regression points `(LAP_NUMBER, delta_to_best)` of the recent window
(tire_degradation.py lines 83-84). -/
def regressionPoints (df : List LapRow) (v : ℤ) (current_lap : ℤ) :
    List (ℚ × ℚ) :=
  let best := bestLapTime (sortedVehicleLaps df v)
  (recentWindow df v current_lap).map
    (fun r => ((r.LAP_NUMBER : ℚ), r.lap_time_seconds - best))

/-- The fitted degradation rate: the OLS slope over the recent window
(tire_degradation.py line 89). -/
def degradationRate (df : List LapRow) (v : ℤ) (current_lap : ℤ) : ℚ :=
  olsSlope (regressionPoints df v current_lap)

/-- Embeds `model.predict([[current_lap]])[0]` (tire_degradation.py line 93). -/
def currentDelta (df : List LapRow) (v : ℤ) (current_lap : ℤ) : ℚ :=
  olsIntercept (regressionPoints df v current_lap) +
    degradationRate df v current_lap * current_lap

/-- The result dict of `predict_pit_window`.  Keys absent from a branch's
dict are `none`; the interpolated lap count in the degrading-branch message
is not carried in the string. -/
structure PitDecision where
  pit_lap : Option ℤ
  confidence : ℕ
  laps_remaining : Option ℤ
  degradation_rate : Option ℚ
  current_delta : Option ℚ
  message : String
  deriving DecidableEq, Repr

/-- Embeds `TireDegradationAnalyzer.predict_pit_window` (tire_degradation.py
lines 54-119). -/
def predict_pit_window (df : List LapRow) (v : ℤ)
    (current_lap total_laps : ℤ) : PitDecision :=
  let vehicle_laps := sortedVehicleLaps df v
  if vehicle_laps.length < 5 then
    ⟨none, 0, none, none, none, "Insufficient data"⟩
  else
    let recent_laps := recentWindow df v current_lap
    let rate := degradationRate df v current_lap
    let current_delta := currentDelta df v current_lap
    let threshold : ℚ := 3 / 2
    if 1 / 100 < rate then
      let laps_until_threshold := (threshold - current_delta) / rate
      let pit_lap0 := pytrunc ((current_lap : ℚ) + laps_until_threshold)
      let pit_lap := max (current_lap + 1) (min pit_lap0 (total_laps - 2))
      let confidence := min 100 (recent_laps.length * 20)
      ⟨some pit_lap, confidence, some (pytrunc laps_until_threshold),
        some (pyround rate 3), some (pyround current_delta 3),
        "Pit recommended"⟩
    else
      ⟨some (total_laps - 1), 50, some (total_laps - current_lap),
        some (pyround rate 3), none, "Tires stable, can extend stint"⟩

end TireDegradation

namespace RaceStrategy

/-- Constant `fuel_consumption_rate` of `RaceStrategyAnalyzer.__init__` (race_strategy.py lines 16-18). -/
def fuel_consumption_rate : ℚ := 8 / 100

/-- Tank capacity in liters. -/
def tank_capacity : ℚ := 50

/-- Pit-stop time cost in seconds. -/
def pit_stop_time : ℚ := 45

/-- The result dict of `calculate_fuel_strategy` (either branch); keys absent
from a branch are `none`. -/
structure FuelState where
  needs_pit : Bool
  recommended_pit_lap : Option ℤ
  laps_on_current_fuel : ℤ
  current_fuel_liters : ℚ
  fuel_to_add_liters : Option ℚ
  consumption_per_lap : ℚ
  deriving DecidableEq, Repr

/-- The vehicle's average speed (race_strategy.py line 38); the `KPH` column
is present in the embedded table, so it is the mean of the vehicle's `KPH`
values. -/
def avgSpeed (df : List LapRow) (v : ℤ) : ℚ :=
  listMean ((vehicleRows df v).map (fun r => r.KPH))

/-- The speed-adjusted per-lap fuel consumption (race_strategy.py
lines 41-42): `fuel_consumption_rate * (avg_speed / 120.0)`. -/
def adjustedConsumption (df : List LapRow) (v : ℤ) : ℚ :=
  fuel_consumption_rate * (avgSpeed df v / 120)

/-- Embeds `RaceStrategyAnalyzer.calculate_fuel_strategy` (race_strategy.py
lines 20-85); `none` is the `error: No data for vehicle` dict. -/
def calculate_fuel_strategy (df : List LapRow) (v : ℤ)
    (current_lap total_laps : ℤ) (current_fuel? : Option ℚ) :
    Option FuelState :=
  let vehicle_laps := vehicleRows df v
  if vehicle_laps.length = 0 then none
  else
    let adjusted_consumption := adjustedConsumption df v
    let current_fuel :=
      match current_fuel? with
      | some f => f
      | none => tank_capacity - (current_lap : ℚ) * adjusted_consumption
    let laps_on_current_fuel := pytrunc (current_fuel / adjusted_consumption)
    let laps_remaining := total_laps - current_lap
    if laps_on_current_fuel < laps_remaining then
      let pit_lap := current_lap + max 1 (laps_on_current_fuel - 2)
      let fuel_to_add := min (tank_capacity - current_fuel)
        (((total_laps - pit_lap) : ℚ) * adjusted_consumption)
      some ⟨true, some pit_lap, laps_on_current_fuel, pyround current_fuel 2,
        some (pyround fuel_to_add 2), pyround adjusted_consumption 3⟩
    else
      some ⟨false, none, laps_on_current_fuel, pyround current_fuel 2,
        none, pyround adjusted_consumption 3⟩

/-! #### Optimal pit strategy (race_strategy.py lines 190-266) -/

/-- The vehicle's parsed lap times: `LAP_TIME` through the local
`parse_time`, rows with failed parses dropped
(race_strategy.py lines 217-218). -/
def parsedLapTimes (df : List LapRow) (v : ℤ) : List ℚ :=
  (vehicleRows df v).filterMap (fun r => parse_time r.LAP_TIME)

/-- The degradation rate used by the search (race_strategy.py lines 221-225):
with 10 or more parsed laps, the mean of the last 5 minus the mean of the
first 5, divided by the number of parsed laps, floored at 0.01; otherwise the
caller-supplied `tire_deg_rate`. -/
def effectiveDegRate (df : List LapRow) (v : ℤ) (tire_deg_rate : ℚ) : ℚ :=
  let times := parsedLapTimes df v
  if 10 ≤ times.length then
    let early_pace := listMean (times.take 5)
    let late_pace := listMean (lastN times 5)
    max ((late_pace - early_pace) / times.length) (1 / 100)
  else tire_deg_rate

/-- Embeds `sum(rate * i for i in range(n))`: the triangular degradation cost of `n`
laps on tires aged from 0 (race_strategy.py lines 229, 238, 245). -/
def degCost (rate : ℚ) (n : ℕ) : ℚ :=
  ∑ i ∈ Finset.range n, rate * (i : ℚ)

/-- Total projected cost of pitting at `pit_lap`: degradation before the stop,
the fixed pit-stop time, and 30%-factored degradation after the stop
(race_strategy.py lines 236-247). -/
def pitTotalCost (rate : ℚ) (current_lap total_laps pit_lap : ℤ) : ℚ :=
  degCost rate (pit_lap - current_lap).toNat + pit_stop_time +
    (3 / 10) * degCost rate (total_laps - pit_lap).toNat

/-- The candidate pit laps examined by the search:
`range(current_lap + 1, total_laps - 2)` — the upper bound `total_laps - 2`
itself is excluded by Python `range` (race_strategy.py line 235). -/
def pitCandidates (current_lap total_laps : ℤ) : List ℤ :=
  pyRange (current_lap + 1) (total_laps - 2)

/-- The search loop (race_strategy.py lines 232-251), seeded with
`best_pit_lap = current_lap + 1` and `min_total_time_lost = float('inf')`. -/
def pitSearch (rate : ℚ) (current_lap total_laps : ℤ) : ℤ × Option ℚ :=
  (pitCandidates current_lap total_laps).foldl
    (minStep (pitTotalCost rate current_lap total_laps))
    (current_lap + 1, none)

/-- The result dict of `calculate_optimal_pit_strategy`.  `time_saved` is
`time_lost_no_pit - min_total_time_lost`, which is minus infinity (`none`)
when the candidate range is empty and the running minimum stays `inf`. -/
structure PitStrategy where
  should_pit : Bool
  optimal_pit_lap : ℤ
  laps_until_pit : ℤ
  time_saved_seconds : Option ℚ
  degradation_rate : ℚ
  time_lost_no_pit : ℚ
  time_lost_with_pit : Option ℚ
  deriving DecidableEq, Repr

/-- Embeds `RaceStrategyAnalyzer.calculate_optimal_pit_strategy` (race_strategy.py
lines 190-266); `none` is the `error: Insufficient data` dict. -/
def calculate_optimal_pit_strategy (df : List LapRow) (v : ℤ)
    (current_lap total_laps : ℤ) (tire_deg_rate : ℚ) : Option PitStrategy :=
  let vehicle_laps := vehicleRows df v
  if vehicle_laps.length < 5 then none
  else
    let rate := effectiveDegRate df v tire_deg_rate
    let laps_remaining := total_laps - current_lap
    let time_lost_no_pit := degCost rate laps_remaining.toNat
    let result := pitSearch rate current_lap total_laps
    let best_pit_lap := result.1
    match result.2 with
    | none =>
      some ⟨false, best_pit_lap, best_pit_lap - current_lap, none,
        pyround rate 4, pyround time_lost_no_pit 2, none⟩
    | some min_total_time_lost =>
      let time_saved := time_lost_no_pit - min_total_time_lost
      some ⟨5 < time_saved, best_pit_lap, best_pit_lap - current_lap,
        some (pyround time_saved 2), pyround rate 4,
        pyround time_lost_no_pit 2, some (pyround min_total_time_lost 2)⟩

end RaceStrategy

namespace RacingLine

/-- The result dict of `calculate_potential_lap_time`
(racing_line.py lines 196-203).  All fields are rounded to 3 places, as in
the source. -/
structure PotentialLap where
  theoretical_best : ℚ
  actual_best : ℚ
  improvement_potential : ℚ
  best_s1 : ℚ
  best_s2 : ℚ
  best_s3 : ℚ
  deriving DecidableEq, Repr

/-- Embeds `RacingLineAnalyzer.calculate_potential_lap_time` (racing_line.py
lines 174-203); `none` is the empty dict returned for a vehicle with no
laps. -/
def calculate_potential_lap_time (df : List LapRow) (v : ℤ) :
    Option PotentialLap :=
  let vehicle_laps := vehicleRows df v
  if vehicle_laps.length = 0 then none
  else
    let best_s1 := columnMin (fun x => x.S1_SECONDS) vehicle_laps
    let best_s2 := columnMin (fun x => x.S2_SECONDS) vehicle_laps
    let best_s3 := columnMin (fun x => x.S3_SECONDS) vehicle_laps
    let theoretical_best := best_s1 + best_s2 + best_s3
    let actual_best := columnMin (fun x => x.lap_time_seconds) vehicle_laps
    let improvement_potential := actual_best - theoretical_best
    some ⟨pyround theoretical_best 3, pyround actual_best 3,
      pyround improvement_potential 3, pyround best_s1 3,
      pyround best_s2 3, pyround best_s3 3⟩

end RacingLine

/-! ### Concrete example tables used by counterexamples and witnesses -/

/-- A lap row for vehicle 1 with the given lap number and lap time; the raw
`LAP_TIME` field parses back to the same time, the average speed is
120 km/h and the sector splits are 30, 30 and 40 seconds. -/
def exRow (lap : ℤ) (t : ℚ) : LapRow :=
  ⟨1, lap, t, [Tok.decTok t], 120, 30, 30, 40⟩

/-- Five laps with strictly increasing lap times in steps of 0.001 s: the
fitted degradation rate is 0.001 s/lap, below the 0.01 threshold. -/
def exFlatDf : List LapRow :=
  [exRow 1 100, exRow 2 (100 + 1 / 1000), exRow 3 (100 + 2 / 1000),
   exRow 4 (100 + 3 / 1000), exRow 5 (100 + 4 / 1000)]

/-- Only three laps of history for vehicle 1. -/
def exShortDf : List LapRow :=
  [exRow 1 100, exRow 2 101, exRow 3 102]

/-- Five laps degrading by 0.2 s/lap over laps 10-14 (the spec's
Scenario 5 data): delta-to-best 0.0, 0.2, 0.4, 0.6, 0.8. -/
def exDegDf : List LapRow :=
  [exRow 10 100, exRow 11 (100 + 2 / 10), exRow 12 (100 + 4 / 10),
   exRow 13 (100 + 6 / 10), exRow 14 (100 + 8 / 10)]

/-- Five laps of which only four (laps 10-13) fall inside the regression
window at current lap 14; the window degrades by 0.2 s/lap. -/
def exDeg4Df : List LapRow :=
  [exRow 1 100, exRow 10 100, exRow 11 (100 + 2 / 10),
   exRow 12 (100 + 4 / 10), exRow 13 (100 + 6 / 10)]

/-- Two laps whose sector times sum exactly to the lap time. -/
def exSectorDf : List LapRow :=
  [⟨1, 1, 101, [Tok.decTok 101], 120, 31, 30, 40⟩,
   ⟨1, 2, 102, [Tok.decTok 102], 120, 32, 30, 40⟩]

/-! ### Helper lemmas about the modelling primitives -/

theorem int_le_pytrunc {n : ℤ} {q : ℚ} (h : (n : ℚ) ≤ q) : n ≤ pytrunc q := by
  unfold pytrunc
  split
  · exact Int.le_floor.mpr h
  · exact_mod_cast h.trans (Int.le_ceil q)

theorem pyround_nonneg {q : ℚ} (d : ℕ) (h : 0 ≤ q) : 0 ≤ pyround q d := by
  unfold pyround
  apply div_nonneg _ (by positivity)
  have h1 : (0 : ℤ) ≤ round (q * 10 ^ d) := by
    rw [round_eq]
    apply Int.floor_nonneg.mpr
    positivity
  exact_mod_cast h1

theorem foldMin_le_init {α : Type} (f : α → ℚ) (a : ℚ) (l : List α) :
    foldMin f a l ≤ a := by
  induction l generalizing a with
  | nil => exact le_refl a
  | cons x xs ih => exact le_trans (ih (min a (f x))) (min_le_left a (f x))

theorem foldMin_le_of_mem {α : Type} (f : α → ℚ) (a : ℚ) {l : List α} {x : α}
    (hx : x ∈ l) : foldMin f a l ≤ f x := by
  induction l generalizing a with
  | nil => cases hx
  | cons y ys ih =>
    rcases List.mem_cons.mp hx with h | h
    · subst h
      exact le_trans (foldMin_le_init f _ ys) (min_le_right a (f x))
    · exact ih _ h

theorem le_foldMin {α : Type} (f : α → ℚ) {a b : ℚ} {l : List α}
    (ha : b ≤ a) (hl : ∀ x ∈ l, b ≤ f x) : b ≤ foldMin f a l := by
  induction l generalizing a with
  | nil => exact ha
  | cons y ys ih =>
    exact ih (le_min ha (hl y (List.mem_cons_self y ys))) (fun x hx => hl x (List.mem_cons_of_mem y hx))

theorem columnMin_le_of_mem {α : Type} (f : α → ℚ) {l : List α} {x : α}
    (hx : x ∈ l) : columnMin f l ≤ f x := by
  cases l with
  | nil => cases hx
  | cons r rs =>
    rcases List.mem_cons.mp hx with h | h
    · subst h
      exact foldMin_le_init f (f x) rs
    · exact foldMin_le_of_mem f (f r) h

theorem le_columnMin {α : Type} (f : α → ℚ) {b : ℚ} {l : List α}
    (hne : l ≠ []) (hl : ∀ x ∈ l, b ≤ f x) : b ≤ columnMin f l := by
  cases l with
  | nil => exact absurd rfl hne
  | cons r rs =>
    exact le_foldMin f (hl r (List.mem_cons_self r rs))
      (fun x hx => hl x (List.mem_cons_of_mem r hx))

theorem mem_pyRange {a b x : ℤ} : x ∈ pyRange a b ↔ a ≤ x ∧ x < b := by
  simp only [pyRange, List.mem_map, List.mem_range]
  constructor
  · rintro ⟨i, hi, rfl⟩
    omega
  · intro h
    exact ⟨(x - a).toNat, by omega, by omega⟩

theorem pyRange_eq_nil {a b : ℤ} (h : b ≤ a) : pyRange a b = [] := by
  unfold pyRange
  have hz : (b - a).toNat = 0 := by omega
  rw [hz]
  rfl

theorem lastN_length {α : Type} (l : List α) (n : ℕ) :
    (lastN l n).length = l.length - (l.length - n) := by
  unfold lastN
  exact List.length_drop _ _

/-- Invariant of the search loop once the running minimum is finite: the
result is the cost of the reported best candidate, which comes from the seed
or the list and weakly improves on the seed and on every scanned candidate. -/
theorem minStep_foldl_some (cost : ℤ → ℚ) (l : List ℤ) :
    ∀ b : ℤ, ∃ b', l.foldl (minStep cost) (b, some (cost b)) = (b', some (cost b')) ∧
      (b' = b ∨ b' ∈ l) ∧ cost b' ≤ cost b ∧ ∀ p ∈ l, cost b' ≤ cost p := by
  induction l with
  | nil => exact fun b => ⟨b, rfl, Or.inl rfl, le_refl _, by simp⟩
  | cons p rest ih =>
    intro b
    by_cases h : cost p < cost b
    · have hstep : minStep cost (b, some (cost b)) p = (p, some (cost p)) := by
        simp [minStep, h]
      obtain ⟨b', h1, h2, h3, h4⟩ := ih p
      refine ⟨b', by simpa [hstep] using h1, ?_, ?_, ?_⟩
      · rcases h2 with h2 | h2
        · exact Or.inr (h2 ▸ List.mem_cons_self p rest)
        · exact Or.inr (List.mem_cons_of_mem p h2)
      · exact h3.trans h.le
      · intro q hq
        rcases List.mem_cons.mp hq with hq | hq
        · exact hq ▸ h3
        · exact h4 q hq
    · have hstep : minStep cost (b, some (cost b)) p = (b, some (cost b)) := by
        simp [minStep, h]
      obtain ⟨b', h1, h2, h3, h4⟩ := ih b
      refine ⟨b', by simpa [hstep] using h1, ?_, h3, ?_⟩
      · rcases h2 with h2 | h2
        · exact Or.inl h2
        · exact Or.inr (List.mem_cons_of_mem p h2)
      · intro q hq
        rcases List.mem_cons.mp hq with hq | hq
        · exact hq ▸ h3.trans (not_lt.mp h)
        · exact h4 q hq

namespace RaceStrategy

/-- With at least one candidate, the search returns a candidate from the
scanned range together with its cost, and that cost is minimal over the
range. -/
theorem pitSearch_spec (rate : ℚ) (current_lap total_laps : ℤ)
    (hne : pitCandidates current_lap total_laps ≠ []) :
    ∃ b, pitSearch rate current_lap total_laps =
        (b, some (pitTotalCost rate current_lap total_laps b)) ∧
      b ∈ pitCandidates current_lap total_laps ∧
      ∀ p ∈ pitCandidates current_lap total_laps,
        pitTotalCost rate current_lap total_laps b ≤
          pitTotalCost rate current_lap total_laps p := by
  set cost := pitTotalCost rate current_lap total_laps with hcost
  rcases hl : pitCandidates current_lap total_laps with _ | ⟨p, rest⟩
  · exact absurd hl hne
  · have hstep : minStep cost (current_lap + 1, none) p = (p, some (cost p)) := by
      simp [minStep]
    obtain ⟨b', h1, h2, h3, h4⟩ := minStep_foldl_some cost rest p
    refine ⟨b', ?_, ?_, ?_⟩
    · unfold pitSearch
      rw [hl]
      simpa [hstep] using h1
    · rcases h2 with h2 | h2
      · exact h2 ▸ List.mem_cons_self p rest
      · exact List.mem_cons_of_mem p h2
    · intro q hq
      rcases List.mem_cons.mp hq with hq | hq
      · exact hq ▸ h3
      · exact h4 q hq

/-- With no candidate, the search returns the seed and the minimum stays
infinite. -/
theorem pitSearch_empty (rate : ℚ) (current_lap total_laps : ℤ)
    (h : pitCandidates current_lap total_laps = []) :
    pitSearch rate current_lap total_laps = (current_lap + 1, none) := by
  unfold pitSearch
  rw [h]
  rfl

end RaceStrategy

namespace TireDegradation

/-- Sorting does not change the number of a vehicle's rows. -/
theorem sortedVehicleLaps_length (df : List LapRow) (v : ℤ) :
    (sortedVehicleLaps df v).length = (vehicleRows df v).length := by
  unfold sortedVehicleLaps
  exact List.length_insertionSort _ _

/-- A vehicle with at least 5 laps always yields a regression window of at
least 3 laps (the fallback window has exactly 5). -/
theorem recentWindow_length (df : List LapRow) (v : ℤ) (current_lap : ℤ)
    (h5 : 5 ≤ (sortedVehicleLaps df v).length) :
    3 ≤ (recentWindow df v current_lap).length := by
  simp only [recentWindow]
  split
  · have := lastN_length (sortedVehicleLaps df v) 5
    omega
  · omega

end TireDegradation

/-! ### Claim C5 — lap-time parsing -/

/-- C5 (counterexample): the claim says malformed strings such as "1:2:3"
yield the absent marker in lap-time parsing; but the strategy module's
`parse_time` splits "1:2:3" into three fields and uses only the first two,
returning 62.0 seconds instead of the absent marker. -/
theorem c5_counterexample :
    RaceStrategy.parse_time [Tok.intTok 1, Tok.intTok 2, Tok.intTok 3] = some 62 ∧
    RaceStrategy.parse_time [Tok.intTok 1, Tok.intTok 2, Tok.intTok 3] ≠ none := by
  constructor
  · norm_num [RaceStrategy.parse_time, pyFloatField]
  · simp [RaceStrategy.parse_time, pyFloatField]

/-- C5 (amended): lap-time parsing is total (modelled by the `Option`
codomain — every input yields `some` seconds or the absent marker `none`,
never an exception).  Both parsers return minutes*60+seconds for a
well-formed "M:SS.mmm" string and the bare value for a numeric string, and
both return the absent marker on "abc"; on "1:2:3" the loader's
`_time_to_seconds` returns the absent marker, but the strategy module's
`parse_time` ignores the third field and returns 62.0. -/
theorem c5_amended :
    (∀ (m : ℤ) (s : ℚ),
      DataLoader.time_to_seconds [Tok.intTok m, Tok.decTok s] = some ((m : ℚ) * 60 + s) ∧
      RaceStrategy.parse_time [Tok.intTok m, Tok.decTok s] = some ((m : ℚ) * 60 + s)) ∧
    (∀ q : ℚ,
      DataLoader.time_to_seconds [Tok.decTok q] = some q ∧
      RaceStrategy.parse_time [Tok.decTok q] = some q) ∧
    DataLoader.time_to_seconds [Tok.junk] = none ∧
    RaceStrategy.parse_time [Tok.junk] = none ∧
    DataLoader.time_to_seconds [Tok.intTok 1, Tok.intTok 2, Tok.intTok 3] = none ∧
    RaceStrategy.parse_time [Tok.intTok 1, Tok.intTok 2, Tok.intTok 3] = some 62 := by
  refine ⟨fun m s => ⟨rfl, rfl⟩, fun q => ⟨rfl, rfl⟩, rfl, rfl, rfl, ?_⟩
  norm_num [RaceStrategy.parse_time, pyFloatField]

/-! ### Claim C6 — lap-number normalization -/

/-- C6 (counterexample): lap 0 lies outside the claimed valid range [1,100],
yet `normalize_lap_number` returns it unchanged rather than the invalid
marker -1 — the code only rejects negative lap numbers. -/
theorem c6_counterexample :
    Telemetry.normalize_lap_number 0 = 0 ∧
    Telemetry.normalize_lap_number 0 ≠ -1 ∧
    ¬ (1 ≤ (0 : ℤ)) := by
  refine ⟨?_, ?_, by norm_num⟩ <;>
    norm_num [Telemetry.normalize_lap_number]

/-- C6 (amended): `normalize_lap_number` returns the invalid marker -1
exactly when the input is the sentinel 32768 or lies outside [0,100]
(not [1,100]: lap 0 is accepted), and returns the lap number unchanged
otherwise. -/
theorem c6_amended (lap : ℤ) :
    (Telemetry.normalize_lap_number lap = -1 ↔
      lap = 32768 ∨ lap < 0 ∨ 100 < lap) ∧
    (¬ (lap = 32768 ∨ lap < 0 ∨ 100 < lap) →
      Telemetry.normalize_lap_number lap = lap) := by
  unfold Telemetry.normalize_lap_number
  split_ifs with h <;> constructor <;> omega

/-- C6 (witness): lap 100 is not rejected and survives normalization
unchanged, by `c6_amended` at 100. -/
theorem c6_amended_witness :
    ¬ ((100 : ℤ) = 32768 ∨ (100 : ℤ) < 0 ∨ 100 < (100 : ℤ)) ∧
    Telemetry.normalize_lap_number 100 = 100 :=
  ⟨by omega, (c6_amended 100).2 (by omega)⟩

/-! ### Claim C7 — telemetry value cleaning -/

/-- C7: for every channel in the `KEY_PARAMETERS` allow-list and every input
value (finite number, NaN, infinite, or non-numeric), `clean_telemetry_value`
returns a finite (non-NaN) number; channels with a declared range come back
inside it (accelerator/throttle 0-100, speed 0-250, gear an integer 0-6,
RPM 0-8500, steering within ±540, longitudinal/lateral acceleration within
±3), and non-numeric input is replaced by the channel default. -/
theorem c7_clean_value_ranges (p : String) (v : Telemetry.TelemIn)
    (hp : p ∈ Telemetry.KEY_PARAMETERS) :
    ∃ q : ℚ, Telemetry.clean_telemetry_value v p = .num q ∧
      (p = "aps" ∨ p = "ath" → 0 ≤ q ∧ q ≤ 100) ∧
      (p = "speed" → 0 ≤ q ∧ q ≤ 250) ∧
      (p = "gear" → q.den = 1 ∧ 0 ≤ q ∧ q ≤ 6) ∧
      (p = "nmot" → 0 ≤ q ∧ q ≤ 8500) ∧
      (p = "Steering_Angle" → -540 ≤ q ∧ q ≤ 540) ∧
      (p = "accx_can" ∨ p = "accy_can" → -3 ≤ q ∧ q ≤ 3) ∧
      (v = .bad → q = Telemetry.get_default_value p) := by
  rcases v with q | _ | _ | _ | _
  · fin_cases hp <;>
      simp only [Telemetry.clean_telemetry_value, Telemetry.PyFloat.num.injEq,
        String.reduceEq, or_self, or_false, false_or, if_true, if_false,
        reduceIte, exists_eq_left', forall_const, IsEmpty.forall_iff, true_and,
        and_true, reduceCtorEq, imp_false, not_false_eq_true] <;>
      first
        | exact ⟨_, rfl⟩
        | exact ⟨le_max_left _ _, max_le (by norm_num) (min_le_left _ _)⟩
        | exact ⟨Rat.den_intCast _, by exact_mod_cast le_max_left 0 _,
            by exact_mod_cast max_le (by norm_num) (min_le_left 6 (pytrunc q))⟩
  all_goals fin_cases hp <;>
    exact ⟨_, rfl, by decide⟩

/-- C7 (witness): an out-of-range speed sample of 300 km/h is clipped into
the declared 0-250 range, by `c7_clean_value_ranges` at ("speed", 300). -/
theorem c7_clean_value_witness :
    ∃ q : ℚ, Telemetry.clean_telemetry_value (.num 300) "speed" = .num q ∧
      0 ≤ q ∧ q ≤ 250 := by
  obtain ⟨q, h1, _, h3, _⟩ :=
    c7_clean_value_ranges "speed" (.num 300) (by decide)
  exact ⟨q, h1, h3 rfl⟩

/-! ### Claim C4 — fuel sufficiency invariant -/

/-- C4: for a vehicle with at least one lap and a positive adjusted per-lap
consumption, any supplied `current_fuel` at least the total remaining
consumption `(total_laps - current_lap) * adjusted_consumption` makes
`calculate_fuel_strategy` report `needs_pit = false`. -/
theorem c4_fuel_sufficiency (df : List LapRow) (v current_lap total_laps : ℤ)
    (fuel : ℚ)
    (hne : (vehicleRows df v).length ≠ 0)
    (hc : 0 < RaceStrategy.adjustedConsumption df v)
    (hfuel : ((total_laps - current_lap : ℤ) : ℚ) *
      RaceStrategy.adjustedConsumption df v ≤ fuel) :
    ∃ res, RaceStrategy.calculate_fuel_strategy df v current_lap total_laps
        (some fuel) = some res ∧
      res.needs_pit = false := by
  have hlap : total_laps - current_lap ≤
      pytrunc (fuel / RaceStrategy.adjustedConsumption df v) :=
    int_le_pytrunc ((le_div_iff₀ hc).mpr hfuel)
  simp only [RaceStrategy.calculate_fuel_strategy]
  rw [if_neg hne, if_neg (not_lt.mpr hlap)]
  exact ⟨_, rfl, rfl⟩

/-- C4 (witness): with 48.4 L on board at lap 20 of 25 and a consumption of
0.08 L/lap at the 120 km/h reference speed, no pit stop is flagged, by
`c4_fuel_sufficiency` on the five-lap table. -/
theorem c4_fuel_sufficiency_witness :
    ∃ res, RaceStrategy.calculate_fuel_strategy exFlatDf 1 20 25
        (some (242 / 5)) = some res ∧
      res.needs_pit = false :=
  c4_fuel_sufficiency exFlatDf 1 20 25 (242 / 5) (by decide)
    (by norm_num [RaceStrategy.adjustedConsumption, RaceStrategy.avgSpeed,
      RaceStrategy.fuel_consumption_rate, vehicleRows, exFlatDf, exRow, listMean])
    (by norm_num [RaceStrategy.adjustedConsumption, RaceStrategy.avgSpeed,
      RaceStrategy.fuel_consumption_rate, vehicleRows, exFlatDf, exRow, listMean])

/-! ### Claim C9 — theoretical best lap from best sectors -/

/-- C9: for a vehicle with at least one lap,
`calculate_potential_lap_time` reports `theoretical_best` as the (rounded)
sum of the three sector-column minima and `improvement_potential` as the
(rounded) actual best lap minus that sum; when every lap's sector times sum
exactly to its lap time, the improvement potential is non-negative. -/
theorem c9_potential_lap (df : List LapRow) (v : ℤ)
    (hne : (vehicleRows df v).length ≠ 0) :
    ∃ rec, RacingLine.calculate_potential_lap_time df v = some rec ∧
      rec.theoretical_best = pyround
        (columnMin (fun r => r.S1_SECONDS) (vehicleRows df v) +
         columnMin (fun r => r.S2_SECONDS) (vehicleRows df v) +
         columnMin (fun r => r.S3_SECONDS) (vehicleRows df v)) 3 ∧
      rec.improvement_potential = pyround
        (columnMin (fun r => r.lap_time_seconds) (vehicleRows df v) -
         (columnMin (fun r => r.S1_SECONDS) (vehicleRows df v) +
          columnMin (fun r => r.S2_SECONDS) (vehicleRows df v) +
          columnMin (fun r => r.S3_SECONDS) (vehicleRows df v))) 3 ∧
      ((∀ r ∈ vehicleRows df v,
          r.lap_time_seconds = r.S1_SECONDS + r.S2_SECONDS + r.S3_SECONDS) →
        0 ≤ rec.improvement_potential) := by
  simp only [RacingLine.calculate_potential_lap_time]
  rw [if_neg hne]
  refine ⟨_, rfl, rfl, rfl, ?_⟩
  intro hsum
  apply pyround_nonneg
  have hlist : vehicleRows df v ≠ [] := by
    intro h
    exact hne (by rw [h]; rfl)
  have hbound : columnMin (fun r => r.S1_SECONDS) (vehicleRows df v) +
      columnMin (fun r => r.S2_SECONDS) (vehicleRows df v) +
      columnMin (fun r => r.S3_SECONDS) (vehicleRows df v) ≤
      columnMin (fun r => r.lap_time_seconds) (vehicleRows df v) := by
    apply le_columnMin _ hlist
    intro r hr
    rw [hsum r hr]
    exact add_le_add (add_le_add (columnMin_le_of_mem _ hr)
      (columnMin_le_of_mem _ hr)) (columnMin_le_of_mem _ hr)
  linarith

/-- C9 (witness): on two laps whose sectors sum exactly to the lap time, the
improvement potential is non-negative, by `c9_potential_lap`. -/
theorem c9_potential_lap_witness :
    ∃ rec, RacingLine.calculate_potential_lap_time exSectorDf 1 = some rec ∧
      0 ≤ rec.improvement_potential := by
  obtain ⟨rec, h1, _, _, h4⟩ := c9_potential_lap exSectorDf 1 (by decide)
  refine ⟨rec, h1, h4 ?_⟩
  intro r hr
  have : r = exSectorDf.get ⟨0, by norm_num [exSectorDf]⟩ ∨
      r = exSectorDf.get ⟨1, by norm_num [exSectorDf]⟩ := by
    simpa [vehicleRows, exSectorDf, List.filter, or_comm] using hr
  rcases this with h | h <;> rw [h] <;> norm_num [exSectorDf]

/-! ### Claims C1, C2, C8, C10 — pit-window prediction -/

namespace TireDegradation

/-- C1 (counterexample): a vehicle with 5 strictly increasing lap times
(steps of 0.001 s) fits a degradation rate of 0.001 ≤ 0.01, so
`predict_pit_window` takes the stable branch and recommends pit lap
`total_laps - 1 = 19` for `total_laps = 20`, violating the claimed upper
bound `total_laps - 2 = 18`. -/
theorem c1_counterexample :
    List.Chain' (fun a b => a < b)
      ((sortedVehicleLaps exFlatDf 1).map (fun r => r.lap_time_seconds)) ∧
    5 ≤ (sortedVehicleLaps exFlatDf 1).length ∧
    (predict_pit_window exFlatDf 1 5 20).pit_lap = some 19 ∧
    ¬ ((19 : ℤ) ≤ 20 - 2) := by
  refine ⟨?_, ?_, ?_, by omega⟩
  · norm_num [sortedVehicleLaps, vehicleRows, exFlatDf, exRow,
      List.insertionSort, List.orderedInsert]
  · norm_num [sortedVehicleLaps, vehicleRows, exFlatDf, exRow,
      List.insertionSort, List.orderedInsert]
  · norm_num [predict_pit_window, degradationRate, regressionPoints,
      recentWindow, sortedVehicleLaps, vehicleRows, bestLapTime, columnMin,
      foldMin, olsSlope, olsIntercept, exFlatDf, exRow, List.insertionSort,
      List.orderedInsert, lastN, pyround, round_eq]

/-- C1 (amended): for a vehicle with strictly increasing lap times and
enough laps, whenever the fitted degradation rate exceeds the 0.01 s/lap
threshold and the window `[current_lap+1, total_laps-2]` is nonempty, the
recommended pit lap lies in that window; with a rate at or below the
threshold the stable branch recommends `total_laps - 1` instead
(see `c1_counterexample`). -/
theorem c1_amended (df : List LapRow) (v current_lap total_laps : ℤ)
    (_hinc : List.Chain' (fun a b => a < b)
      ((sortedVehicleLaps df v).map (fun r => r.lap_time_seconds)))
    (h5 : 5 ≤ (sortedVehicleLaps df v).length)
    (hrate : 1 / 100 < degradationRate df v current_lap)
    (hrange : current_lap + 1 ≤ total_laps - 2) :
    ∃ p, (predict_pit_window df v current_lap total_laps).pit_lap = some p ∧
      current_lap + 1 ≤ p ∧ p ≤ total_laps - 2 := by
  simp only [predict_pit_window]
  rw [if_neg (by omega), if_pos hrate]
  exact ⟨_, rfl, le_max_left _ _, max_le hrange (min_le_right _ _)⟩

/-- C1 (witness): on the Scenario-5 table (laps 10-14 degrading by
0.2 s/lap, strictly increasing) at lap 14 of 27, the recommendation lies in
[15, 25], by `c1_amended`. -/
theorem c1_amended_witness :
    ∃ p, (predict_pit_window exDegDf 1 14 27).pit_lap = some p ∧
      14 + 1 ≤ p ∧ p ≤ 27 - 2 :=
  c1_amended exDegDf 1 14 27
    (by norm_num [sortedVehicleLaps, vehicleRows, exDegDf, exRow,
      List.insertionSort, List.orderedInsert])
    (by decide)
    (by norm_num [degradationRate, regressionPoints, recentWindow,
      sortedVehicleLaps, vehicleRows, bestLapTime, columnMin, foldMin,
      olsSlope, exDegDf, exRow, List.insertionSort, List.orderedInsert, lastN])
    (by omega)

/-- C2 (counterexample): a vehicle with exactly 3 laps of history gets the
zero-confidence, no-recommendation result — the code requires 5 laps, not
the claimed 3. -/
theorem c2_counterexample :
    (vehicleRows exShortDf 1).length = 3 ∧
    (predict_pit_window exShortDf 1 3 20).pit_lap = none ∧
    (predict_pit_window exShortDf 1 3 20).confidence = 0 := by
  refine ⟨by decide, ?_, ?_⟩ <;>
    · simp only [predict_pit_window]
      rw [if_pos (by decide)]

/-- C2 (amended): `predict_pit_window` requires a minimum of 5 laps: a
vehicle with at least 5 laps of history always gets a fitted rate and a
recommended pit lap with positive confidence, and a vehicle with fewer than
5 laps gets the zero-confidence, no-recommendation "Insufficient data"
result instead of a fabricated number. -/
theorem c2_amended (df : List LapRow) (v current_lap total_laps : ℤ) :
    (5 ≤ (vehicleRows df v).length →
      (predict_pit_window df v current_lap total_laps).pit_lap ≠ none ∧
      (predict_pit_window df v current_lap total_laps).degradation_rate ≠ none ∧
      0 < (predict_pit_window df v current_lap total_laps).confidence) ∧
    ((vehicleRows df v).length < 5 →
      predict_pit_window df v current_lap total_laps =
        ⟨none, 0, none, none, none, "Insufficient data"⟩) := by
  have hlen := sortedVehicleLaps_length df v
  constructor
  · intro h5
    have hwin := recentWindow_length df v current_lap (by omega)
    simp only [predict_pit_window]
    rw [if_neg (by omega)]
    split_ifs with hr
    · refine ⟨by simp, by simp, ?_⟩
      simp only [PitDecision.confidence]
      omega
    · exact ⟨by simp, by simp, by norm_num⟩
  · intro h
    simp only [predict_pit_window]
    rw [if_pos (by omega)]

/-- C2 (witness): the five-lap Scenario-5 table clears the data check and
yields a recommendation with positive confidence, by `c2_amended`. -/
theorem c2_amended_witness :
    (predict_pit_window exDegDf 1 14 27).pit_lap ≠ none ∧
    (predict_pit_window exDegDf 1 14 27).degradation_rate ≠ none ∧
    0 < (predict_pit_window exDegDf 1 14 27).confidence :=
  (c2_amended exDegDf 1 14 27).1 (by decide)

/-- C8: the confidence reported by `predict_pit_window` is non-decreasing
in the number of laps in the regression window, holding the fitted
degradation regime equal: if both runs clear the data check and both fits
land in the same regime (both above the 0.01 s/lap degrading threshold, or
both at or below it), the run with the larger window reports at least the
confidence of the smaller one. -/
theorem c8_confidence_monotone (df₁ df₂ : List LapRow)
    (v₁ v₂ c₁ c₂ t₁ t₂ : ℤ)
    (h₁ : 5 ≤ (vehicleRows df₁ v₁).length)
    (h₂ : 5 ≤ (vehicleRows df₂ v₂).length)
    (hreg : (1 / 100 < degradationRate df₁ v₁ c₁ ∧
             1 / 100 < degradationRate df₂ v₂ c₂) ∨
            (degradationRate df₁ v₁ c₁ ≤ 1 / 100 ∧
             degradationRate df₂ v₂ c₂ ≤ 1 / 100))
    (hn : (recentWindow df₁ v₁ c₁).length ≤ (recentWindow df₂ v₂ c₂).length) :
    (predict_pit_window df₁ v₁ c₁ t₁).confidence ≤
      (predict_pit_window df₂ v₂ c₂ t₂).confidence := by
  have hl₁ := sortedVehicleLaps_length df₁ v₁
  have hl₂ := sortedVehicleLaps_length df₂ v₂
  simp only [predict_pit_window]
  rw [if_neg (show ¬ (sortedVehicleLaps df₁ v₁).length < 5 by omega)]
  rw [if_neg (show ¬ (sortedVehicleLaps df₂ v₂).length < 5 by omega)]
  rcases hreg with ⟨hr₁, hr₂⟩ | ⟨hr₁, hr₂⟩
  · rw [if_pos hr₁, if_pos hr₂]
    simp only [PitDecision.confidence]
    omega
  · rw [if_neg (not_lt.mpr hr₁), if_neg (not_lt.mpr hr₂)]

/-- C8 (witness): a 4-lap regression window (confidence 80) against a 5-lap
window (confidence 100), both degrading at 0.2 s/lap, by
`c8_confidence_monotone`. -/
theorem c8_confidence_monotone_witness :
    (predict_pit_window exDeg4Df 1 14 27).confidence ≤
      (predict_pit_window exDegDf 1 14 27).confidence :=
  c8_confidence_monotone exDeg4Df exDegDf 1 1 14 14 27 27
    (by decide) (by decide)
    (Or.inl ⟨by norm_num [degradationRate, regressionPoints, recentWindow,
        sortedVehicleLaps, vehicleRows, bestLapTime, columnMin, foldMin,
        olsSlope, exDeg4Df, exRow, List.insertionSort, List.orderedInsert,
        lastN],
      by norm_num [degradationRate, regressionPoints, recentWindow,
        sortedVehicleLaps, vehicleRows, bestLapTime, columnMin, foldMin,
        olsSlope, exDegDf, exRow, List.insertionSort, List.orderedInsert,
        lastN]⟩)
    (by decide)

/-- C10: whenever `predict_pit_window` clears its 5-lap data check and the
fitted degradation rate is at most 0.01 s/lap, the result is the stable
branch: pit lap `total_laps - 1` and confidence exactly 50, regardless of
how much supporting data was supplied. -/
theorem c10_stable_regime (df : List LapRow) (v current_lap total_laps : ℤ)
    (h5 : 5 ≤ (vehicleRows df v).length)
    (hrate : degradationRate df v current_lap ≤ 1 / 100) :
    (predict_pit_window df v current_lap total_laps).pit_lap =
      some (total_laps - 1) ∧
    (predict_pit_window df v current_lap total_laps).confidence = 50 := by
  have hlen := sortedVehicleLaps_length df v
  simp only [predict_pit_window]
  rw [if_neg (by omega), if_neg (not_lt.mpr hrate)]
  exact ⟨rfl, rfl⟩

/-- C10 (witness): the slowly-degrading five-lap table (rate 0.001) at lap
5 of 20 yields pit lap 19 and confidence 50, by `c10_stable_regime`. -/
theorem c10_stable_regime_witness :
    (predict_pit_window exFlatDf 1 5 20).pit_lap = some (20 - 1) ∧
    (predict_pit_window exFlatDf 1 5 20).confidence = 50 :=
  c10_stable_regime exFlatDf 1 5 20 (by decide)
    (by norm_num [degradationRate, regressionPoints, recentWindow,
      sortedVehicleLaps, vehicleRows, bestLapTime, columnMin, foldMin,
      olsSlope, exFlatDf, exRow, List.insertionSort, List.orderedInsert,
      lastN])

end TireDegradation

/-! ### Claim C3 — optimal pit strategy -/

namespace RaceStrategy

/-- The candidate set as claim C3 words it: every candidate pit lap from
`current_lap + 1` to `total_laps - 2` inclusive.  Stated from the claim for
comparison with the code's `pitCandidates`, which is built with Python
`range(current_lap + 1, total_laps - 2)` and so excludes the upper
endpoint `total_laps - 2`. -/
def claimedPitCandidates (current_lap total_laps : ℤ) : List ℤ :=
  pyRange (current_lap + 1) (total_laps - 1)

/-- C3 (counterexample): at `current_lap = 10`, `total_laps = 13` the
claimed candidate set is exactly the one lap 11 = total_laps - 2, whose
projected saving over the do-nothing baseline is 36 s > 5 s — yet the code's
`range` excludes it, scans nothing, leaves the minimum at infinity and
returns `should_pit = false`. -/
theorem c3_counterexample :
    calculate_optimal_pit_strategy exFlatDf 1 10 13 30 =
      some ⟨false, 11, 1, none, 30, 90, none⟩ ∧
    claimedPitCandidates 10 13 = [11] ∧
    (5 : ℚ) < degCost 30 ((13 - 10 : ℤ)).toNat - pitTotalCost 30 10 13 11 := by
  refine ⟨?_, by decide, ?_⟩
  · have hrate : effectiveDegRate exFlatDf 1 30 = 30 := by
      norm_num [effectiveDegRate, parsedLapTimes, parse_time, pyFloatField,
        vehicleRows, exFlatDf, exRow, List.filterMap_cons, List.filterMap_nil]
    simp only [calculate_optimal_pit_strategy]
    rw [if_neg (by decide), pitSearch_empty _ _ _ (by decide), hrate]
    norm_num [pyround, round_eq, degCost, show Int.toNat 3 = 3 from rfl,
      Finset.sum_range_succ, Finset.sum_range_zero]
  · norm_num [degCost, pitTotalCost, pit_stop_time,
      show Int.toNat 3 = 3 from rfl, show Int.toNat 2 = 2 from rfl,
      Finset.sum_range_succ, Finset.sum_range_zero]

/-- C3 (amended): the exhaustive search runs over candidates from
`current_lap + 1` up to `total_laps - 3` (Python `range` excludes
`total_laps - 2`).  Whenever at least one candidate exists, the returned
pit lap is a cost-minimizing candidate of that range and `should_pit` holds
exactly when the do-nothing baseline minus the found minimum exceeds 5
seconds; when the range is empty the result is `should_pit = false` with
pit lap `current_lap + 1`. -/
theorem c3_amended (df : List LapRow) (v current_lap total_laps : ℤ)
    (rate : ℚ) (h5 : 5 ≤ (vehicleRows df v).length) :
    (current_lap + 1 < total_laps - 2 →
      ∃ res, calculate_optimal_pit_strategy df v current_lap total_laps rate =
          some res ∧
        res.optimal_pit_lap ∈ pitCandidates current_lap total_laps ∧
        (∀ p ∈ pitCandidates current_lap total_laps,
          pitTotalCost (effectiveDegRate df v rate) current_lap total_laps
              res.optimal_pit_lap ≤
            pitTotalCost (effectiveDegRate df v rate) current_lap total_laps p) ∧
        (res.should_pit = true ↔
          5 < degCost (effectiveDegRate df v rate) (total_laps - current_lap).toNat -
            pitTotalCost (effectiveDegRate df v rate) current_lap total_laps
              res.optimal_pit_lap)) ∧
    (total_laps - 2 ≤ current_lap + 1 →
      ∃ res, calculate_optimal_pit_strategy df v current_lap total_laps rate =
          some res ∧
        res.should_pit = false ∧ res.optimal_pit_lap = current_lap + 1) := by
  constructor
  · intro hlt
    have hne : pitCandidates current_lap total_laps ≠ [] :=
      List.ne_nil_of_mem (mem_pyRange.mpr ⟨le_refl _, by omega⟩)
    obtain ⟨b, hps, hmem, hmin⟩ :=
      pitSearch_spec (effectiveDegRate df v rate) current_lap total_laps hne
    simp only [calculate_optimal_pit_strategy]
    rw [if_neg (by omega), hps]
    refine ⟨_, rfl, hmem, hmin, ?_⟩
    simp
  · intro hge
    have hnil : pitCandidates current_lap total_laps = [] :=
      pyRange_eq_nil (by omega)
    rw [show pitCandidates current_lap total_laps =
      pyRange (current_lap + 1) (total_laps - 2) from rfl] at hnil
    simp only [calculate_optimal_pit_strategy]
    rw [if_neg (by omega),
      pitSearch_empty (effectiveDegRate df v rate) current_lap total_laps hnil]
    exact ⟨_, rfl, rfl, rfl⟩

/-- C3 (witness): at lap 10 of 20 with assumed rate 0.05 s/lap the search
range is nonempty; by `c3_amended`, the returned pit lap minimizes the
projected total cost over the scanned candidates and `should_pit` matches
the 5-second saving test. -/
theorem c3_amended_witness :
    ∃ res, calculate_optimal_pit_strategy exFlatDf 1 10 20 (1 / 20) =
        some res ∧
      res.optimal_pit_lap ∈ pitCandidates 10 20 ∧
      (∀ p ∈ pitCandidates 10 20,
        pitTotalCost (effectiveDegRate exFlatDf 1 (1 / 20)) 10 20
            res.optimal_pit_lap ≤
          pitTotalCost (effectiveDegRate exFlatDf 1 (1 / 20)) 10 20 p) ∧
      (res.should_pit = true ↔
        5 < degCost (effectiveDegRate exFlatDf 1 (1 / 20)) ((20 - 10 : ℤ)).toNat -
          pitTotalCost (effectiveDegRate exFlatDf 1 (1 / 20)) 10 20
            res.optimal_pit_lap) :=
  (c3_amended exFlatDf 1 10 20 (1 / 20) (by decide)).1 (by omega)

end RaceStrategy

end RaceIQ
